import Mathlib

/-!
Shallow embedding of `src/server.js` (puppeteer-pdf-service).

The service is an Express app with three routes: `GET /health`,
`POST /api/generate-pdf` and `POST /api/test-pdf`.  The PDF route
validates the body, launches a headless browser, builds an HTML catalog
string with `generateCatalogHTML`, loads it, produces a PDF and sends it;
the browser is closed in a `finally` block.

Modelling conventions:
  * JavaScript optional / possibly-`undefined` values become `Option`;
    template interpolation of `undefined` yields the string "undefined".
  * The JS `||` default idiom is modelled by `jsOrStr` / `jsOrNat`
    (the empty string and the number 0 are falsy).
  * Effects on the puppeteer browser are recorded as a trace of
    `PageOp`s; the external library's outcomes (launch, page creation,
    content load, pdf production) are an `Env` of `Except` results.
  * Literal braces and apostrophes inside string literals are written
    with the escapes `\x7b` `\x7d` `\x27`; the denoted strings are the
    exact characters of the source template literal.
  * JS numeric prices are modelled as non-negative decimal numerals
    (`Price`), which covers every numeral written in the source; float
    rounding is out of scope.
-/

namespace PdfService

/-- Decimal numeral as written in JS source, e.g. `199.99` is `⟨199, "99"⟩`
and `1234` is `⟨1234, ""⟩`. -/
structure Price where
  intPart : Nat
  fracPart : String
deriving DecidableEq, Repr

/-- ProductRecord of the request body (src/server.js uses `id`, `name`,
`image_url`, `price_retail`, `description`; only `name`, `image_url` and
`price_retail` are read by the templater). -/
structure Product where
  id : Option String
  name : Option String
  image_url : Option String
  price_retail : Option Price
  description : Option String
deriving DecidableEq, Repr

/-- businessInfo object of the request body. -/
structure BusinessInfo where
  business_name : Option String
  phone : Option String
  email : Option String
deriving DecidableEq, Repr

/-- template.layout. -/
structure Layout where
  columns : Option Nat
deriving DecidableEq, Repr

/-- template.colors. -/
structure Colors where
  primary : Option String
  secondary : Option String
  accent : Option String
  background : Option String
  text : Option String
deriving DecidableEq, Repr

/-- StyleTemplate: every field optional. -/
structure Template where
  displayName : Option String
  productsPerPage : Option Nat
  layout : Option Layout
  colors : Option Colors
deriving DecidableEq, Repr

/-- The JS object literal `\x7b\x7d` used as a template with no fields. -/
def emptyTemplate : Template := ⟨none, none, none, none⟩

/-- Interpolating a possibly-undefined JS string into a template literal:
`undefined` prints as "undefined". -/
def jsStr : Option String → String
  | some s => s
  | none => "undefined"

/-- JS `s || d` for strings: the empty string is falsy. -/
def jsOrStr : Option String → String → String
  | none, d => d
  | some s, d => if s = "" then d else s

/-- JS `n || d` for numbers: 0 is falsy. -/
def jsOrNat : Option Nat → Nat → Nat
  | none, d => d
  | some n, d => if n = 0 then d else n

/-- Insert the es-MX thousands separator into a reversed digit list:
after every three digits emitted, a comma is placed before the next one. -/
def groupRevAux : List Char → Nat → List Char
  | [], _ => []
  | c :: cs, k => if k = 3 then ',' :: c :: groupRevAux cs 1 else c :: groupRevAux cs (k + 1)

/-- `formatPrice` (src/server.js line 308): `Intl.NumberFormat(\x27es-MX\x27)`
grouping; `format(undefined)` yields "NaN". -/
def formatPrice : Option Price → String
  | none => "NaN"
  | some p =>
      String.mk ((groupRevAux (toString p.intPart).data.reverse 0).reverse)
        ++ (if p.fracPart = "" then "" else "." ++ p.fracPart)

/-- The per-product card fragment: body of the arrow function in
`products.map(product => ...)` (src/server.js lines 282-294). -/
def productCard (product : Product) : String :=
"
          <div class=\"product-card\">
            <div class=\"product-image-container\">
              <img
                src=\"" ++ jsOrStr product.image_url "https://via.placeholder.com/300x300.png?text=Sin+Imagen" ++ "\"
                alt=\"" ++ jsStr product.name ++ "\"
                class=\"product-image\"
              />
            </div>
            <h3 class=\"product-name\">" ++ jsStr product.name ++ "</h3>
            <div class=\"product-price\">$" ++ formatPrice product.price_retail ++ "</div>
          </div>
        "

/-- The part of the catalog template literal (src/server.js lines
170-281) that precedes the interpolation of the joined product cards.
Braces and apostrophes of the source text are escaped as \x7b \x7d
\x27. -/
def catalogHead (businessInfo : BusinessInfo) (template : Template) : String :=
  let columns := jsOrNat (Option.bind template.layout Layout.columns) 3
"
    <!DOCTYPE html>
    <html lang=\"es\">
    <head>
      <meta charset=\"UTF-8\">
      <meta name=\"viewport\" content=\"width=device-width, initial-scale=1.0\">
      <title>Catálogo " ++ jsStr businessInfo.business_name ++ "</title>
      <style>
        * \x7b
          margin: 0;
          padding: 0;
          box-sizing: border-box;
        \x7d

        @page \x7b
          size: A4;
          margin: 10mm;
        \x7d

        body \x7b
          font-family: \x27Arial\x27, sans-serif;
          color: " ++ jsOrStr (Option.bind template.colors Colors.text) "#333" ++ ";
          background: " ++ jsOrStr (Option.bind template.colors Colors.background) "#ffffff" ++ ";
          line-height: 1.4;
        \x7d

        .catalog-header \x7b
          text-align: center;
          margin-bottom: 25px;
          padding: 20px;
          background: linear-gradient(135deg, " ++ jsOrStr (Option.bind template.colors Colors.primary) "#007bff" ++ ", " ++ jsOrStr (Option.bind template.colors Colors.secondary) "#6c757d" ++ ");
          color: white;
          border-radius: 12px;
        \x7d

        .business-name \x7b
          font-size: 28px;
          font-weight: bold;
          margin-bottom: 8px;
        \x7d

        .products-grid \x7b
          display: grid;
          grid-template-columns: repeat(" ++ toString columns ++ ", 1fr);
          gap: 15px;
          margin-bottom: 20px;
        \x7d

        .product-card \x7b
          background: white;
          border: 2px solid " ++ jsOrStr (Option.bind template.colors Colors.accent) "#dee2e6" ++ ";
          border-radius: 10px;
          padding: 12px;
          text-align: center;
          display: flex;
          flex-direction: column;
        \x7d

        .product-image-container \x7b
          width: 100%;
          aspect-ratio: 1 / 1;
          background: #f8f9fa;
          border-radius: 8px;
          margin-bottom: 10px;
          overflow: hidden;
          position: relative;
          border: 1px solid #e9ecef;
        \x7d

        .product-image \x7b
          width: 100%;
          height: 100%;
          object-fit: contain;
          object-position: center;
        \x7d

        .product-name \x7b
          font-size: 14px;
          font-weight: 600;
          color: " ++ jsOrStr (Option.bind template.colors Colors.primary) "#007bff" ++ ";
          margin-bottom: 8px;
          word-wrap: break-word;
          flex-grow: 1;
        \x7d

        .product-price \x7b
          font-size: 16px;
          font-weight: 700;
          color: " ++ jsOrStr (Option.bind template.colors Colors.secondary) "#6c757d" ++ ";
          background: " ++ jsOrStr (Option.bind template.colors Colors.accent) "#dee2e6" ++ "40;
          padding: 6px 10px;
          border-radius: 6px;
          margin-top: auto;
        \x7d

        .catalog-footer \x7b
          margin-top: 20px;
          padding: 15px;
          background: " ++ jsOrStr (Option.bind template.colors Colors.primary) "#007bff" ++ "10;
          border-radius: 8px;
          text-align: center;
          font-size: 12px;
        \x7d
      </style>
    </head>
    <body>
      <div class=\"catalog-header\">
        <h1 class=\"business-name\">" ++ jsStr businessInfo.business_name ++ "</h1>
        <p>Catálogo " ++ jsOrStr template.displayName "Premium" ++ "</p>
      </div>

      <div class=\"products-grid\">
        "

/-- The part of the catalog template literal (src/server.js lines
294-305) that follows the interpolation of the joined product cards. -/
def catalogFoot (businessInfo : BusinessInfo) (products : List Product) : String :=
"
      </div>

      <div class=\"catalog-footer\">
        <div>📞 " ++ jsOrStr businessInfo.phone "" ++ " | 📧 " ++ jsOrStr businessInfo.email "" ++ "</div>
        <div style=\"margin-top: 5px; opacity: 0.8;\">
          Catálogo generado con CatalogoIA - " ++ toString products.length ++ " productos
        </div>
      </div>
    </body>
    </html>
  "

/-- Body of `generateCatalogHTML` once `template` is known to be an
object: the single template literal of src/server.js lines 170-305,
which concatenates the head, the joined per-product card fragments (in
input order) and the foot.  The first two `const` bindings of the
function are the two `let`s here; `productsPerPage` is computed and
never used. -/
def catalogHTML (products : List Product) (businessInfo : BusinessInfo) (template : Template) : String :=
  let _productsPerPage := jsOrNat template.productsPerPage 6
  catalogHead businessInfo template
    ++ String.join (products.map productCard)
    ++ catalogFoot businessInfo products

/-- `generateCatalogHTML` (src/server.js line 166).  Its first statement,
`const productsPerPage = template.productsPerPage || 6;`, dereferences
`template` without optional chaining, so calling it with an absent
(`undefined`) template throws a TypeError; with any object template it
returns the catalog HTML string. -/
def generateCatalogHTML (products : List Product) (businessInfo : BusinessInfo) (template : Option Template) : Except String String :=
  match template with
  | none => Except.error "Cannot read properties of undefined (reading \x27productsPerPage\x27)"
  | some t => Except.ok (catalogHTML products businessInfo t)

/-! ### Request bodies and responses -/

/-- The `products` field of a request body: absent (or otherwise falsy),
present but not an array, or an array of products. -/
inductive ReqProducts
  | absent
  | notArray
  | arr (ps : List Product)
deriving DecidableEq, Repr

/-- The `businessInfo` field of a request body: absent (or falsy) or an
object. -/
inductive ReqBusinessInfo
  | absent
  | obj (bi : BusinessInfo)
deriving DecidableEq, Repr

/-- Body of a POST /api/generate-pdf request, as destructured on
src/server.js line 46.  `options` is destructured but never used by the
handler; it is modelled as an opaque optional payload. -/
structure RequestBody where
  products : ReqProducts
  businessInfo : ReqBusinessInfo
  template : Option Template
  options : Option String
deriving DecidableEq, Repr

/-- Response bodies the handler produces: an error JSON
(`\x7berror\x7d` or `\x7berror, details\x7d`) or the PDF bytes. -/
inductive ResBody
  | errJson (error : String) (details : Option String)
  | pdf (bytes : List Nat)
deriving DecidableEq, Repr

/-- HTTP response as assembled by the handler.  Headers the handler does
not set explicitly are `none` (Express's own defaults, e.g. the JSON
content type of error responses, are outside the model). -/
structure Response where
  status : Nat
  contentType : Option String
  contentDisposition : Option String
  body : ResBody
deriving DecidableEq, Repr

/-- Configuration object passed to `page.pdf` (src/server.js lines
94-103).  `preferCSSPageSize` is part of the puppeteer API with default
`false`; the source passes no such key, so it stays at the default. -/
structure PdfConfig where
  format : String
  marginTop : String
  marginBottom : String
  marginLeft : String
  marginRight : String
  printBackground : Bool
  preferCSSPageSize : Bool
deriving DecidableEq, Repr

/-- The literal options object of the `page.pdf` call. -/
def pdfOptions : PdfConfig :=
  ⟨"A4", "10mm", "10mm", "10mm", "10mm", true, false⟩

/-- Browser-interaction operations attempted by the handler, recorded in
order.  `injectStyle` is in the vocabulary (it is the operation the
spec's render-invoker description mentions, `page.addStyleTag`) so that
its absence from every trace is statable; the handler never emits it. -/
inductive PageOp
  | launch
  | newPage
  | setViewport (width : Nat) (height : Nat) (deviceScaleFactor : Nat)
  | injectStyle (css : String)
  | setContent (html : String) (waitUntil : String) (timeout : Nat)
  | pdf (cfg : PdfConfig)
  | closeBrowser
deriving DecidableEq, Repr

/-- Outcomes the external puppeteer library returns for each call the
handler makes; an `Except.error` models the promise rejecting with that
message.  `browser.close` is assumed not to throw. -/
structure Env where
  launchRes : Except String Unit
  newPageRes : Except String Unit
  setViewportRes : Except String Unit
  setContentRes : Except String Unit
  pdfRes : Except String (List Nat)
deriving Repr

/-- An environment in which every browser call succeeds and the PDF
bytes are `%PDF`. -/
def okEnv : Env :=
  ⟨Except.ok (), Except.ok (), Except.ok (), Except.ok (), Except.ok [37, 80, 68, 70]⟩

/-- Responses of the 400 validation branches (src/server.js lines 49-55). -/
def err400 (msg : String) : Response := ⟨400, none, none, ResBody.errJson msg none⟩

/-- Response of the catch branch (src/server.js lines 112-117):
status 500 with `\x7berror: \x27Error generando PDF\x27, details: error.message\x7d`. -/
def err500 (details : String) : Response :=
  ⟨500, none, none, ResBody.errJson "Error generando PDF" (some details)⟩

/-- Filename sanitizer of src/server.js line 109:
`.replace(/[^a-zA-Z0-9]/g, \x27_\x27)`. -/
def sanitizeFilename (s : String) : String :=
  String.mk (s.data.map fun c =>
    if ('a' ≤ c && c ≤ 'z') || ('A' ≤ c && c ≤ 'Z') || ('0' ≤ c && c ≤ '9') then c else '_')

/-- The 200 response of the success path (src/server.js lines 108-110):
`res.send(pdfBuffer)` with the two explicit headers. -/
def successResponse (bi : BusinessInfo) (bytes : List Nat) : Response :=
  ⟨200, some "application/pdf",
    some ("attachment; filename=\"catalogo-" ++ sanitizeFilename (jsStr bi.business_name) ++ ".pdf\""),
    ResBody.pdf bytes⟩

/-- JS truthiness of `businessInfo.business_name`: `undefined` and the
empty string are falsy. -/
def jsTruthyStr : Option String → Bool
  | none => false
  | some s => !(s = "")

/-- The try/catch/finally body of the handler after validation
(src/server.js lines 57-122), as a function of the library outcomes.
Each attempted browser call is recorded; on the first rejection the
catch branch produces the 500 response; the `finally` closes the
browser exactly when `puppeteer.launch` had succeeded (otherwise
`browser` is still `null`). -/
def renderPath (ps : List Product) (bi : BusinessInfo) (tmpl : Option Template) (env : Env) : Response × List PageOp :=
  match env.launchRes with
  | Except.error e => (err500 e, [PageOp.launch])
  | Except.ok _ =>
    match env.newPageRes with
    | Except.error e => (err500 e, [PageOp.launch, PageOp.newPage, PageOp.closeBrowser])
    | Except.ok _ =>
      match env.setViewportRes with
      | Except.error e =>
          (err500 e, [PageOp.launch, PageOp.newPage, PageOp.setViewport 1200 1600 2, PageOp.closeBrowser])
      | Except.ok _ =>
        match generateCatalogHTML ps bi tmpl with
        | Except.error e =>
            (err500 e, [PageOp.launch, PageOp.newPage, PageOp.setViewport 1200 1600 2, PageOp.closeBrowser])
        | Except.ok html =>
          match env.setContentRes with
          | Except.error e =>
              (err500 e, [PageOp.launch, PageOp.newPage, PageOp.setViewport 1200 1600 2,
                PageOp.setContent html "networkidle0" 30000, PageOp.closeBrowser])
          | Except.ok _ =>
            match env.pdfRes with
            | Except.error e =>
                (err500 e, [PageOp.launch, PageOp.newPage, PageOp.setViewport 1200 1600 2,
                  PageOp.setContent html "networkidle0" 30000, PageOp.pdf pdfOptions, PageOp.closeBrowser])
            | Except.ok bytes =>
                (successResponse bi bytes,
                  [PageOp.launch, PageOp.newPage, PageOp.setViewport 1200 1600 2,
                    PageOp.setContent html "networkidle0" 30000, PageOp.pdf pdfOptions, PageOp.closeBrowser])

/-- The POST /api/generate-pdf handler (src/server.js lines 45-123):
the two validation guards, then the render path. -/
def handleGeneratePdf (body : RequestBody) (env : Env) : Response × List PageOp :=
  match body.products with
  | ReqProducts.absent => (err400 "Se requiere array de productos válido", [])
  | ReqProducts.notArray => (err400 "Se requiere array de productos válido", [])
  | ReqProducts.arr ps =>
    if ps.length = 0 then (err400 "Se requiere array de productos válido", [])
    else
      match body.businessInfo with
      | ReqBusinessInfo.absent => (err400 "Se requiere información del negocio", [])
      | ReqBusinessInfo.obj bi =>
        if jsTruthyStr bi.business_name then renderPath ps bi body.template env
        else (err400 "Se requiere información del negocio", [])

/-- Whether a request body passes the handler's two validation guards. -/
def validates (b : RequestBody) : Bool :=
  match b.products with
  | ReqProducts.arr ps =>
    (!(ps.length = 0)) &&
      (match b.businessInfo with
       | ReqBusinessInfo.obj bi => jsTruthyStr bi.business_name
       | ReqBusinessInfo.absent => false)
  | _ => false

/-! ### The test endpoint and the router -/

/-- The canned product of the /api/test-pdf payload (src/server.js
lines 130-138). -/
def testProduct : Product :=
  ⟨some "1", some "Producto de Prueba",
    some "https://via.placeholder.com/300x300.png?text=TEST",
    some ⟨199, "99"⟩, some "Descripción de prueba"⟩

/-- The canned businessInfo of the /api/test-pdf payload. -/
def testBusinessInfo : BusinessInfo :=
  ⟨some "Test Business", some "+52 1234567890", some "test@example.com"⟩

/-- The canned template of the /api/test-pdf payload. -/
def testTemplate : Template :=
  ⟨some "Test Template", some 6, some ⟨some 3⟩,
    some ⟨some "#007bff", some "#6c757d", some "#17a2b8", some "#ffffff", some "#333333"⟩⟩

/-- The full canned body assigned to `req.body` by the /api/test-pdf
handler (src/server.js lines 129-156); it carries no `options`. -/
def testData : RequestBody :=
  ⟨ReqProducts.arr [testProduct], ReqBusinessInfo.obj testBusinessInfo, some testTemplate, none⟩

/-- An incoming request as the router sees it: its URL path and its
(mutable, here functionally updated) body. -/
structure HttpRequest where
  path : String
  body : RequestBody
deriving DecidableEq, Repr

/-- Route matching of the Express router over the two POST routes, in
registration order. -/
inductive Route
  | generatePdf
  | testPdf
  | noMatch
deriving DecidableEq, Repr

/-- Which registered route a path matches. -/
def routeOf (path : String) : Route :=
  if path = "/api/generate-pdf" then Route.generatePdf
  else if path = "/api/test-pdf" then Route.testPdf
  else Route.noMatch

/-- Router dispatch (`app._router.handle`).  The /api/test-pdf handler
(src/server.js lines 128-161) overwrites `req.body` with `testData` and
re-enters the router with the request otherwise unchanged — in
particular `req.url` is still `/api/test-pdf`.  Re-entry consumes fuel;
exhausted fuel (`none`) models the real service's unbounded
self-dispatch, which is only cut off externally (rate limiter or call
stack), never by producing a handler response.  Unmatched paths (the
404 fallthrough) are also `none`. -/
def routerHandle : Nat → HttpRequest → Env → Option (Response × List PageOp)
  | 0, _, _ => none
  | Nat.succ fuel, req, env =>
    match routeOf req.path with
    | Route.generatePdf => some (handleGeneratePdf req.body env)
    | Route.testPdf => routerHandle fuel ⟨req.path, testData⟩ env
    | Route.noMatch => none

/-! ### Helpers for stating trace and counting properties -/

/-- Number of elements of a trace satisfying `p`. -/
def countOp (p : PageOp → Bool) (tr : List PageOp) : Nat := (tr.filter p).length

/-- Whether an operation is the browser launch. -/
def isLaunch : PageOp → Bool
  | PageOp.launch => true
  | _ => false

/-- Whether an operation closes the browser. -/
def isCloseBrowser : PageOp → Bool
  | PageOp.closeBrowser => true
  | _ => false

/-- Whether an operation injects a style override into the page. -/
def isInjectStyle : PageOp → Bool
  | PageOp.injectStyle _ => true
  | _ => false

/-- Whether an operation is the PDF-producing call. -/
def isPdfCall : PageOp → Bool
  | PageOp.pdf _ => true
  | _ => false

/-- Whether `pre` is a prefix of `s`. -/
def isPrefixList : List Char → List Char → Bool
  | [], _ => true
  | _ :: _, [] => false
  | a :: asTail, b :: bsTail => a = b && isPrefixList asTail bsTail

/-- Number of (possibly overlapping) occurrences of `pat` in the
remaining list, plus `acc`. -/
def countOccurAcc (pat : List Char) (acc : Nat) : List Char → Nat
  | [] => acc
  | c :: rest =>
    match isPrefixList pat (c :: rest) with
    | true => countOccurAcc pat (acc + 1) rest
    | false => countOccurAcc pat acc rest

/-- Number of occurrences of the pattern string in `s`. -/
def countSub (pat s : String) : Nat := countOccurAcc pat.data 0 s.data

/-! ### Concrete fixtures used by witnesses and scenario checks -/

/-- A request body with no `products` and no `businessInfo` field. -/
def invalidBody : RequestBody := ⟨ReqProducts.absent, ReqBusinessInfo.absent, none, none⟩

/-- An environment whose browser launch rejects. -/
def launchFailEnv : Env :=
  ⟨Except.error "Failed to launch the browser process!",
    Except.ok (), Except.ok (), Except.ok (), Except.ok []⟩

/-- Three-product list for the spec scenario (three items, two-column
template). -/
def scenarioProducts : List Product :=
  [⟨some "1", some "Silla Roja", some "https://example.com/p1.png", some ⟨1250, "50"⟩, none⟩,
   ⟨some "2", some "Mesa Azul", none, some ⟨890, ""⟩, none⟩,
   ⟨some "3", some "Lámpara", some "https://example.com/p3.png", some ⟨15999, "99"⟩, none⟩]

/-- Business info for the spec scenario. -/
def scenarioBusinessInfo : BusinessInfo := ⟨some "Mi Negocio", some "+52 5551234567", none⟩

/-- A template whose layout has 2 columns. -/
def scenarioTemplate : Template := ⟨none, none, some ⟨some 2⟩, none⟩

/-- The HTML the templater produces for the scenario. -/
def scenarioHtml : String := catalogHTML scenarioProducts scenarioBusinessInfo scenarioTemplate

/-- A template with every fallback default filled in explicitly: the
default values the source falls back to at each use site
(displayName = Premium, productsPerPage = 6, columns = 3, and the five
default colors). -/
def defaultsTemplate : Template :=
  ⟨some "Premium", some 6, some ⟨some 3⟩,
    some ⟨some "#007bff", some "#6c757d", some "#dee2e6", some "#ffffff", some "#333"⟩⟩

/-- Whether an external call outcome is a rejection. -/
def exceptFails {α : Type} : Except String α → Bool
  | Except.error _ => true
  | Except.ok _ => false

/-! ## Theorems -/

/-- C1: a POST /api/generate-pdf body with products absent, not an
array or empty, or with businessInfo absent or without a (truthy)
business_name, is answered with status 400 and performs no browser
operation at all (no launch, no page creation, no render). -/
theorem generate_pdf_invalid_request_400_no_browser_ops
    (b : RequestBody) (env : Env)
    (h : b.products = ReqProducts.absent ∨ b.products = ReqProducts.notArray ∨
      b.products = ReqProducts.arr [] ∨ b.businessInfo = ReqBusinessInfo.absent ∨
      ∃ bi, b.businessInfo = ReqBusinessInfo.obj bi ∧ jsTruthyStr bi.business_name = false) :
    (handleGeneratePdf b env).1.status = 400 ∧ (handleGeneratePdf b env).2 = [] := by
  obtain ⟨prods, binfo, tmpl, opts⟩ := b
  cases prods with
  | absent => exact ⟨rfl, rfl⟩
  | notArray => exact ⟨rfl, rfl⟩
  | arr ps =>
    simp only [handleGeneratePdf]
    rcases h with h | h | h | h | ⟨bi, hbi, hfal⟩
    · exact absurd h (by simp)
    · exact absurd h (by simp)
    · obtain rfl : ps = [] := by injection h
      exact ⟨rfl, rfl⟩
    · cases h
      by_cases hl : ps.length = 0
      · rw [if_pos hl]; exact ⟨rfl, rfl⟩
      · rw [if_neg hl]; exact ⟨rfl, rfl⟩
    · cases hbi
      by_cases hl : ps.length = 0
      · rw [if_pos hl]; exact ⟨rfl, rfl⟩
      · rw [if_neg hl]
        simp [hfal, err400]

/-- Witness for C1: the body with neither products nor businessInfo is
rejected with 400 and an empty browser trace. -/
theorem generate_pdf_invalid_request_400_no_browser_ops_witness :
    (handleGeneratePdf invalidBody okEnv).1.status = 400 ∧
    (handleGeneratePdf invalidBody okEnv).2 = [] :=
  generate_pdf_invalid_request_400_no_browser_ops invalidBody okEnv (Or.inl rfl)

/-- C3 counterexample: `generateCatalogHTML` called with an absent
(`undefined`) template does raise (a TypeError on reading
`productsPerPage`), so it is not total over all template values. -/
theorem generate_catalog_html_absent_template_throws :
    generateCatalogHTML [testProduct] testBusinessInfo none
      = Except.error "Cannot read properties of undefined (reading \x27productsPerPage\x27)" := rfl

/-- C3 as amended: for every product list, businessInfo and every
present (object) template — including templates missing any of the
optional fields — `generateCatalogHTML` returns an HTML string, and an
entirely empty template produces exactly the same output as a template
whose fields all carry the fallback default values. -/
theorem generate_catalog_html_object_template_total_with_defaults
    (ps : List Product) (bi : BusinessInfo) (t : Template) :
    (generateCatalogHTML ps bi (some t)).isOk = true ∧
    generateCatalogHTML ps bi (some emptyTemplate)
      = generateCatalogHTML ps bi (some defaultsTemplate) :=
  ⟨rfl, rfl⟩

/-- C9: dispatching a POST to /api/test-pdf re-enters the router with
the URL unchanged, so it matches the /api/test-pdf route again and
recurses without ever producing a response (first conjunct, for every
fuel bound), while actually POSTing the canned payload to
/api/generate-pdf yields the 200 PDF response (second conjunct): the
replay does not produce what the main path produces. -/
theorem test_pdf_self_dispatch_never_reaches_generate_pdf :
    (∀ fuel env b, routerHandle fuel ⟨"/api/test-pdf", b⟩ env = none) ∧
    routerHandle 1 ⟨"/api/generate-pdf", testData⟩ okEnv
      = some (successResponse testBusinessInfo [37, 80, 68, 70],
          [PageOp.launch, PageOp.newPage, PageOp.setViewport 1200 1600 2,
            PageOp.setContent (catalogHTML [testProduct] testBusinessInfo testTemplate)
              "networkidle0" 30000,
            PageOp.pdf pdfOptions, PageOp.closeBrowser]) := by
  constructor
  · intro fuel
    induction fuel with
    | zero => intro env b; rfl
    | succ n ih =>
      intro env b
      show routerHandle n ⟨"/api/test-pdf", testData⟩ env = none
      exact ih env testData
  · rfl

/-- C10: two validated requests that differ only in the `options` field
and in `template.productsPerPage` receive identical treatment: the
whole handler output (response and browser-operation trace, hence the
generated HTML and the configuration passed to the PDF call) coincides,
and the generated catalog HTML itself does not depend on
`productsPerPage`. -/
theorem response_independent_of_options_and_products_per_page
    (env : Env) (prods : ReqProducts) (binfo : ReqBusinessInfo)
    (tmpl : Option Template) (ppp1 ppp2 : Option Nat) (opts1 opts2 : Option String) :
    handleGeneratePdf
        ⟨prods, binfo, tmpl.map (fun t => ⟨t.displayName, ppp1, t.layout, t.colors⟩), opts1⟩ env
      = handleGeneratePdf
        ⟨prods, binfo, tmpl.map (fun t => ⟨t.displayName, ppp2, t.layout, t.colors⟩), opts2⟩ env ∧
    ∀ (ps : List Product) (bi : BusinessInfo) (t : Template),
      catalogHTML ps bi ⟨t.displayName, ppp1, t.layout, t.colors⟩
        = catalogHTML ps bi ⟨t.displayName, ppp2, t.layout, t.colors⟩ := by
  refine ⟨?_, fun ps bi t => rfl⟩
  cases tmpl with
  | none => rfl
  | some t => rfl

/-- C4: every request that passes validation attempts exactly one fresh
browser launch, and whenever that launch succeeds the browser is closed
as the final browser operation, exactly once, on the success path and
on every error path (the page is torn down with the browser: the source
has no separate page.close, `browser.close()` disposes its pages). -/
theorem validated_request_launches_and_closes_browser
    (b : RequestBody) (env : Env) (hv : validates b = true) :
    countOp isLaunch (handleGeneratePdf b env).2 = 1 ∧
    (env.launchRes = Except.ok () →
      (handleGeneratePdf b env).2.getLast? = some PageOp.closeBrowser ∧
      countOp isCloseBrowser (handleGeneratePdf b env).2 = 1) := by
  obtain ⟨prods, binfo, tmpl, opts⟩ := b
  cases prods with
  | absent => simp [validates] at hv
  | notArray => simp [validates] at hv
  | arr ps =>
    cases binfo with
    | absent => simp [validates] at hv
    | obj bi =>
      simp only [validates, Bool.and_eq_true] at hv
      obtain ⟨hne, htr⟩ := hv
      have hlen : ¬ ps.length = 0 := by simpa using hne
      have hred : handleGeneratePdf ⟨ReqProducts.arr ps, ReqBusinessInfo.obj bi, tmpl, opts⟩ env
          = renderPath ps bi tmpl env := by
        simp [handleGeneratePdf, hlen, htr]
      rw [hred]
      obtain ⟨lr, npr, svr, scr, pr⟩ := env
      cases lr with
      | error e => exact ⟨rfl, fun hcontra => nomatch hcontra⟩
      | ok u =>
        cases npr with
        | error e => exact ⟨rfl, fun _ => ⟨rfl, rfl⟩⟩
        | ok u2 =>
          cases svr with
          | error e => exact ⟨rfl, fun _ => ⟨rfl, rfl⟩⟩
          | ok u3 =>
            cases tmpl with
            | none => exact ⟨rfl, fun _ => ⟨rfl, rfl⟩⟩
            | some t =>
              cases scr with
              | error e => exact ⟨rfl, fun _ => ⟨rfl, rfl⟩⟩
              | ok u4 =>
                cases pr with
                | error e => exact ⟨rfl, fun _ => ⟨rfl, rfl⟩⟩
                | ok bytes => exact ⟨rfl, fun _ => ⟨rfl, rfl⟩⟩

/-- Witness for C4: the canned valid body under an all-succeeding
environment launches once and closes last, once. -/
theorem validated_request_launches_and_closes_browser_witness :
    validates testData = true ∧
    (countOp isLaunch (handleGeneratePdf testData okEnv).2 = 1 ∧
      (okEnv.launchRes = Except.ok () →
        (handleGeneratePdf testData okEnv).2.getLast? = some PageOp.closeBrowser ∧
        countOp isCloseBrowser (handleGeneratePdf testData okEnv).2 = 1)) :=
  ⟨by decide, validated_request_launches_and_closes_browser testData okEnv (by decide)⟩

/-- C5: when validation passes, a template object is present and every
browser call succeeds, the handler answers 200 with content type
application/pdf, a content-disposition attachment whose filename is
catalogo-(sanitized business name).pdf, and the produced PDF bytes as
the body. -/
theorem successful_render_200_pdf_response
    (ps : List Product) (bi : BusinessInfo) (t : Template) (opts : Option String)
    (env : Env) (bytes : List Nat)
    (hps : ps ≠ []) (hbi : jsTruthyStr bi.business_name = true)
    (hl : env.launchRes = Except.ok ()) (hn : env.newPageRes = Except.ok ())
    (hvp : env.setViewportRes = Except.ok ()) (hc : env.setContentRes = Except.ok ())
    (hp : env.pdfRes = Except.ok bytes) :
    (handleGeneratePdf ⟨ReqProducts.arr ps, ReqBusinessInfo.obj bi, some t, opts⟩ env).1.status
        = 200 ∧
    (handleGeneratePdf ⟨ReqProducts.arr ps, ReqBusinessInfo.obj bi, some t, opts⟩ env).1.contentType
        = some "application/pdf" ∧
    (handleGeneratePdf ⟨ReqProducts.arr ps, ReqBusinessInfo.obj bi, some t, opts⟩ env).1.contentDisposition
        = some ("attachment; filename=\"catalogo-"
            ++ sanitizeFilename (jsStr bi.business_name) ++ ".pdf\"") ∧
    (handleGeneratePdf ⟨ReqProducts.arr ps, ReqBusinessInfo.obj bi, some t, opts⟩ env).1.body
        = ResBody.pdf bytes := by
  have hlen : ¬ ps.length = 0 := by simpa using hps
  have hred : handleGeneratePdf ⟨ReqProducts.arr ps, ReqBusinessInfo.obj bi, some t, opts⟩ env
      = renderPath ps bi (some t) env := by
    simp [handleGeneratePdf, hlen, hbi]
  rw [hred]
  simp only [renderPath, hl, hn, hvp, hc, hp, generateCatalogHTML]
  exact ⟨rfl, rfl, rfl, rfl⟩

/-- Witness for C5: the canned valid request in the all-succeeding
environment yields the 200 PDF response with the derived filename. -/
theorem successful_render_200_pdf_response_witness :
    (([testProduct] : List Product) ≠ [] ∧
      jsTruthyStr testBusinessInfo.business_name = true ∧
      okEnv.launchRes = Except.ok () ∧ okEnv.newPageRes = Except.ok () ∧
      okEnv.setViewportRes = Except.ok () ∧ okEnv.setContentRes = Except.ok () ∧
      okEnv.pdfRes = Except.ok [37, 80, 68, 70]) ∧
    ((handleGeneratePdf ⟨ReqProducts.arr [testProduct], ReqBusinessInfo.obj testBusinessInfo,
          some testTemplate, none⟩ okEnv).1.status = 200 ∧
      (handleGeneratePdf ⟨ReqProducts.arr [testProduct], ReqBusinessInfo.obj testBusinessInfo,
          some testTemplate, none⟩ okEnv).1.contentType = some "application/pdf" ∧
      (handleGeneratePdf ⟨ReqProducts.arr [testProduct], ReqBusinessInfo.obj testBusinessInfo,
          some testTemplate, none⟩ okEnv).1.contentDisposition
        = some ("attachment; filename=\"catalogo-"
            ++ sanitizeFilename (jsStr testBusinessInfo.business_name) ++ ".pdf\"") ∧
      (handleGeneratePdf ⟨ReqProducts.arr [testProduct], ReqBusinessInfo.obj testBusinessInfo,
          some testTemplate, none⟩ okEnv).1.body = ResBody.pdf [37, 80, 68, 70]) :=
  ⟨⟨by decide, by decide, rfl, rfl, rfl, rfl, rfl⟩,
    successful_render_200_pdf_response [testProduct] testBusinessInfo testTemplate none okEnv
      [37, 80, 68, 70] (by decide) (by decide) rfl rfl rfl rfl rfl⟩

/-- C6: for a validated request, if any browser step of the render path
rejects (launch, page creation, viewport setup, content load or PDF
production), the handler answers 500 with the error body
(error = Error generando PDF, details = the failure message), and no
step is retried (at most one launch attempt and at most one PDF call in
the trace). -/
theorem render_failure_500_error_details (b : RequestBody) (env : Env)
    (hv : validates b = true)
    (hf : exceptFails env.launchRes = true ∨ exceptFails env.newPageRes = true ∨
      exceptFails env.setViewportRes = true ∨ exceptFails env.setContentRes = true ∨
      exceptFails env.pdfRes = true) :
    (handleGeneratePdf b env).1.status = 500 ∧
    (∃ d, (handleGeneratePdf b env).1.body = ResBody.errJson "Error generando PDF" (some d)) ∧
    countOp isLaunch (handleGeneratePdf b env).2 = 1 ∧
    countOp isPdfCall (handleGeneratePdf b env).2 ≤ 1 := by
  obtain ⟨prods, binfo, tmpl, opts⟩ := b
  cases prods with
  | absent => simp [validates] at hv
  | notArray => simp [validates] at hv
  | arr ps =>
    cases binfo with
    | absent => simp [validates] at hv
    | obj bi =>
      simp only [validates, Bool.and_eq_true] at hv
      obtain ⟨hne, htr⟩ := hv
      have hlen : ¬ ps.length = 0 := by simpa using hne
      have hred : handleGeneratePdf ⟨ReqProducts.arr ps, ReqBusinessInfo.obj bi, tmpl, opts⟩ env
          = renderPath ps bi tmpl env := by
        simp [handleGeneratePdf, hlen, htr]
      rw [hred]
      obtain ⟨lr, npr, svr, scr, pr⟩ := env
      cases lr with
      | error e => exact ⟨rfl, ⟨e, rfl⟩, rfl, Nat.zero_le 1⟩
      | ok u =>
        cases npr with
        | error e => exact ⟨rfl, ⟨e, rfl⟩, rfl, Nat.zero_le 1⟩
        | ok u2 =>
          cases svr with
          | error e => exact ⟨rfl, ⟨e, rfl⟩, rfl, Nat.zero_le 1⟩
          | ok u3 =>
            cases tmpl with
            | none =>
              exact ⟨rfl,
                ⟨"Cannot read properties of undefined (reading \x27productsPerPage\x27)", rfl⟩,
                rfl, Nat.zero_le 1⟩
            | some t =>
              cases scr with
              | error e => exact ⟨rfl, ⟨e, rfl⟩, rfl, Nat.zero_le 1⟩
              | ok u4 =>
                cases pr with
                | error e => exact ⟨rfl, ⟨e, rfl⟩, rfl, Nat.le_refl 1⟩
                | ok bytes => simp [exceptFails] at hf

/-- Witness for C6: the canned valid body under a failing browser
launch receives the 500 error response with details, after a single
launch attempt. -/
theorem render_failure_500_error_details_witness :
    (validates testData = true ∧ exceptFails launchFailEnv.launchRes = true) ∧
    ((handleGeneratePdf testData launchFailEnv).1.status = 500 ∧
      (∃ d, (handleGeneratePdf testData launchFailEnv).1.body
        = ResBody.errJson "Error generando PDF" (some d)) ∧
      countOp isLaunch (handleGeneratePdf testData launchFailEnv).2 = 1 ∧
      countOp isPdfCall (handleGeneratePdf testData launchFailEnv).2 ≤ 1) :=
  ⟨⟨by decide, rfl⟩,
    render_failure_500_error_details testData launchFailEnv (by decide) (Or.inl rfl)⟩

/-- C7 counterexample: on the concrete valid canned request, with every
browser call succeeding, the handler performs no style-injection
operation at all before (or after) loading the HTML — the claimed
print-color style override does not exist in this code path. -/
theorem render_path_no_style_override_counterexample :
    ¬ ∃ css, PageOp.injectStyle css ∈ (handleGeneratePdf testData okEnv).2 := by
  rintro ⟨css, hmem⟩
  have htr : (handleGeneratePdf testData okEnv).2
      = [PageOp.launch, PageOp.newPage, PageOp.setViewport 1200 1600 2,
          PageOp.setContent (catalogHTML [testProduct] testBusinessInfo testTemplate)
            "networkidle0" 30000,
          PageOp.pdf pdfOptions, PageOp.closeBrowser] := rfl
  rw [htr] at hmem
  simp at hmem

/-- C7 as amended: the render path never injects a style override into
the page (for any request and any environment the trace holds no
injectStyle operation); exact background reproduction is instead
requested through the printBackground flag of the PDF call. -/
theorem render_path_no_style_override_print_background_instead
    (b : RequestBody) (env : Env) :
    countOp isInjectStyle (handleGeneratePdf b env).2 = 0 ∧
    pdfOptions.printBackground = true := by
  refine ⟨?_, rfl⟩
  obtain ⟨prods, binfo, tmpl, opts⟩ := b
  cases prods with
  | absent => rfl
  | notArray => rfl
  | arr ps =>
    by_cases hlen : ps.length = 0
    · simp [handleGeneratePdf, hlen, countOp]
    · cases binfo with
      | absent => simp [handleGeneratePdf, hlen, countOp]
      | obj bi =>
        by_cases ht : jsTruthyStr bi.business_name = true
        · have hred : handleGeneratePdf ⟨ReqProducts.arr ps, ReqBusinessInfo.obj bi, tmpl, opts⟩ env
              = renderPath ps bi tmpl env := by
            simp [handleGeneratePdf, hlen, ht]
          rw [hred]
          obtain ⟨lr, npr, svr, scr, pr⟩ := env
          cases lr with
          | error e => rfl
          | ok u =>
            cases npr with
            | error e => rfl
            | ok u2 =>
              cases svr with
              | error e => rfl
              | ok u3 =>
                cases tmpl with
                | none => rfl
                | some t =>
                  cases scr with
                  | error e => rfl
                  | ok u4 =>
                    cases pr with
                    | error e => rfl
                    | ok bytes => rfl
        · simp [handleGeneratePdf, hlen, ht, countOp]

/-- C8 counterexample: on the concrete valid canned request the PDF
call that actually happens uses a configuration that does not take the
page-size preference from the embedded stylesheet: its
preferCSSPageSize is false (the source passes no such option, so the
puppeteer default applies). -/
theorem pdf_call_no_css_page_size_preference_counterexample :
    (handleGeneratePdf testData okEnv).2.filter isPdfCall = [PageOp.pdf pdfOptions] ∧
    pdfOptions.preferCSSPageSize = false :=
  ⟨rfl, rfl⟩

set_option maxRecDepth 10000 in
/-- C8 as amended: every PDF-producing call the handler makes is
invoked with page format A4, 10mm margins on all four sides and
background printing enabled, but without requesting the stylesheet
page-size preference (preferCSSPageSize stays false); the embedded
stylesheet itself does declare one @page size A4 rule. -/
theorem pdf_call_options_a4_margins_background
    (b : RequestBody) (env : Env) (cfg : PdfConfig)
    (h : PageOp.pdf cfg ∈ (handleGeneratePdf b env).2) :
    cfg = pdfOptions ∧ cfg.format = "A4" ∧ cfg.marginTop = "10mm" ∧
    cfg.marginBottom = "10mm" ∧ cfg.marginLeft = "10mm" ∧ cfg.marginRight = "10mm" ∧
    cfg.printBackground = true ∧ cfg.preferCSSPageSize = false ∧
    countSub "size: A4;" scenarioHtml = 1 := by
  have hcfg : cfg = pdfOptions := by
    obtain ⟨prods, binfo, tmpl, opts⟩ := b
    cases prods with
    | absent => simp [handleGeneratePdf] at h
    | notArray => simp [handleGeneratePdf] at h
    | arr ps =>
      by_cases hlen : ps.length = 0
      · simp [handleGeneratePdf, hlen] at h
      · cases binfo with
        | absent => simp [handleGeneratePdf, hlen] at h
        | obj bi =>
          by_cases ht : jsTruthyStr bi.business_name = true
          · have hred : handleGeneratePdf ⟨ReqProducts.arr ps, ReqBusinessInfo.obj bi, tmpl, opts⟩ env
                = renderPath ps bi tmpl env := by
              simp [handleGeneratePdf, hlen, ht]
            rw [hred] at h
            obtain ⟨lr, npr, svr, scr, pr⟩ := env
            cases lr with
            | error e => simp [renderPath] at h
            | ok u =>
              cases npr with
              | error e => simp [renderPath] at h
              | ok u2 =>
                cases svr with
                | error e => simp [renderPath] at h
                | ok u3 =>
                  cases tmpl with
                  | none => simp [renderPath, generateCatalogHTML] at h
                  | some t =>
                    cases scr with
                    | error e => simp [renderPath, generateCatalogHTML] at h
                    | ok u4 =>
                      cases pr with
                      | error e =>
                        simp [renderPath, generateCatalogHTML] at h
                        exact h
                      | ok bytes =>
                        simp [renderPath, generateCatalogHTML] at h
                        exact h
          · simp [handleGeneratePdf, hlen, ht] at h
  subst hcfg
  refine ⟨rfl, rfl, rfl, rfl, rfl, rfl, rfl, rfl, ?_⟩
  decide

/-- Witness for C8 as amended: the PDF call of the canned request is in
the trace and carries exactly the A4 / 10mm / printBackground
configuration. -/
theorem pdf_call_options_a4_margins_background_witness :
    PageOp.pdf pdfOptions ∈ (handleGeneratePdf testData okEnv).2 ∧
    (pdfOptions = pdfOptions ∧ pdfOptions.format = "A4" ∧ pdfOptions.marginTop = "10mm" ∧
      pdfOptions.marginBottom = "10mm" ∧ pdfOptions.marginLeft = "10mm" ∧
      pdfOptions.marginRight = "10mm" ∧ pdfOptions.printBackground = true ∧
      pdfOptions.preferCSSPageSize = false ∧ countSub "size: A4;" scenarioHtml = 1) := by
  have hmem : PageOp.pdf pdfOptions ∈ (handleGeneratePdf testData okEnv).2 :=
    List.mem_cons_of_mem _ (List.mem_cons_of_mem _ (List.mem_cons_of_mem _
      (List.mem_cons_of_mem _ (List.mem_cons_self _ _))))
  exact ⟨hmem, pdf_call_options_a4_margins_background testData okEnv pdfOptions hmem⟩

set_option maxRecDepth 10000 in
/-- C2: for a product list of length at least 1 and a truthy business
name, the catalog HTML is the head, the per-product card fragments
joined in the input list order (one fragment per product), and the
foot; and in the concrete spec scenario — three products rendered with
a two-column template — the HTML holds exactly one two-column grid
declaration and exactly three product-name card headings. -/
theorem catalog_html_one_card_per_product_in_order
    (ps : List Product) (bi : BusinessInfo) (t : Template)
    (_hps : 1 ≤ ps.length) (_hbi : jsTruthyStr bi.business_name = true) :
    (∃ pre post, catalogHTML ps bi t
        = pre ++ String.join (ps.map productCard) ++ post) ∧
    (ps.map productCard).length = ps.length ∧
    countSub "grid-template-columns: repeat(2, 1fr)" scenarioHtml = 1 ∧
    countSub "class=\"product-name\"" scenarioHtml = 3 :=
  ⟨⟨catalogHead bi t, catalogFoot bi ps, rfl⟩, by simp, by decide, by decide⟩

set_option maxRecDepth 10000 in
/-- Witness for C2: the scenario inputs satisfy the hypotheses and the
conclusion holds for them. -/
theorem catalog_html_one_card_per_product_in_order_witness :
    (1 ≤ scenarioProducts.length ∧
      jsTruthyStr scenarioBusinessInfo.business_name = true) ∧
    ((∃ pre post, catalogHTML scenarioProducts scenarioBusinessInfo scenarioTemplate
        = pre ++ String.join (scenarioProducts.map productCard) ++ post) ∧
      (scenarioProducts.map productCard).length = scenarioProducts.length ∧
      countSub "grid-template-columns: repeat(2, 1fr)" scenarioHtml = 1 ∧
      countSub "class=\"product-name\"" scenarioHtml = 3) :=
  ⟨⟨by decide, by decide⟩,
    catalog_html_one_card_per_product_in_order scenarioProducts scenarioBusinessInfo
      scenarioTemplate (by decide) (by decide)⟩

end PdfService
